import Mathlib

/-!
Verification development for the HorioHop itinerary pipeline: the polyline
geometry codec (`src/lib/polyline.ts`), the Motis routing client
(`src/lib/routing.ts`), the localStorage demand ledger (`src/lib/demand.ts`),
and the `AppProvider` journey orchestrator (`src/context/AppContext.tsx`),
shallowly embedded in Lean.  JavaScript 32-bit bitwise arithmetic is modelled
on `Int` with explicit reduction modulo `2 ^ 32`; JavaScript numbers that only
ever hold exact values in the code paths under study are modelled as `ℚ`
(coordinates, durations) or `Int` (epoch-millisecond timestamps).
-/

/-! ### JavaScript 32-bit integer primitives

JavaScript bitwise operators coerce their operands with `ToInt32`/`ToUint32`
and operate on two's-complement 32-bit values.  We model a 32-bit value as an
`Int` in `[-2^31, 2^31)` and each operator by explicit modular arithmetic. -/

/-- `ToInt32`: reduce an integer into `[-2^31, 2^31)` (two's complement). -/
def toInt32 (n : Int) : Int := (n + 2 ^ 31) % 2 ^ 32 - 2 ^ 31

/-- `ToUint32`: reduce an integer into `[0, 2^32)`. -/
def toUint32 (n : Int) : Int := n % 2 ^ 32

/-- JavaScript `a | b` (bitwise or on the 32-bit two's-complement images). -/
def jsOr (a b : Int) : Int :=
  toInt32 (Int.ofNat ((toUint32 a).toNat ||| (toUint32 b).toNat))

/-- JavaScript `a << s`: shift the 32-bit image left by `s & 31` bits. -/
def jsShl (a : Int) (s : Nat) : Int :=
  toInt32 (toUint32 a * 2 ^ (s % 32))

/-- JavaScript `a >> s` (sign-propagating right shift): arithmetic shift of
the 32-bit image, i.e. floor division by `2 ^ (s & 31)`. -/
def jsShrS (a : Int) (s : Nat) : Int :=
  Int.fdiv (toInt32 a) (2 ^ (s % 32))

/-- JavaScript `a & 0x1f`: bitwise and with 31 equals reduction mod 32 on the
two's-complement image. -/
def jsAnd31 (a : Int) : Int := a % 32

/-- JavaScript `a & 1`. -/
def jsAnd1 (a : Int) : Int := a % 2

/-- JavaScript `~a` on a 32-bit value: `-a - 1`, renormalized to 32 bits. -/
def jsNot (a : Int) : Int := toInt32 (-(toInt32 a) - 1)

/-! ### Geometry codec (`src/lib/polyline.ts`, `decodePolyline`)

The encoded string is modelled as its list of UTF-16 code units (the values
`charCodeAt` yields).  Reading past the end of a JavaScript string yields
`NaN`; then `NaN & 0x1f = 0` leaves `result` unchanged and `NaN >= 0x20` is
false, so the inner `do … while` loop exits — modelled by the `[]` case of
`decodeGroup` returning `result` with the (empty) remainder. -/

/-- One `do { byte = encoded.charCodeAt(index++) - 63; result |= (byte & 0x1f)
<< shift; shift += 5; } while (byte >= 0x20)` loop of `decodePolyline`:
returns the accumulated `result` and the remaining code units. -/
def decodeGroup : List Nat → Nat → Int → Int × List Nat
  | [], _, result => (result, [])
  | c :: rest, shift, result =>
      let byte : Int := (c : Int) - 63
      let result1 := jsOr result (jsShl (jsAnd31 byte) shift)
      if byte ≥ 32 then decodeGroup rest (shift + 5) result1
      else (result1, rest)

/-- `result & 1 ? ~(result >> 1) : result >> 1` — zig-zag sign decoding. -/
def decodeDelta (result : Int) : Int :=
  if jsAnd1 result = 1 then jsNot (jsShrS result 1) else jsShrS result 1

/-- The outer `while (index < encoded.length)` loop of `decodePolyline`:
decode a latitude group and a longitude group, add the deltas to the running
totals, push `[lat / 1e5, lng / 1e5]`, and continue on the remainder. -/
def decodeLoop (l : List Nat) (lat lng : Int) : List (ℚ × ℚ) :=
  match l with
  | [] => []
  | c :: rest =>
      let p1 := decodeGroup (c :: rest) 0 0
      let lat1 := lat + decodeDelta p1.1
      let p2 := decodeGroup p1.2 0 0
      let lng1 := lng + decodeDelta p2.1
      ((lat1 : ℚ) / 100000, (lng1 : ℚ) / 100000) :: decodeLoop p2.2 lat1 lng1
termination_by l.length
decreasing_by
  have key : ∀ (m : List Nat) (s : Nat) (r : Int),
      (decodeGroup m s r).2.length ≤ m.length := by
    intro m
    induction m with
    | nil => intro s r; simp [decodeGroup]
    | cons a t ih =>
        intro s r
        rw [decodeGroup]
        split
        · exact Nat.le_trans (ih _ _) (Nat.le_succ _)
        · exact Nat.le_succ _
  have key2 : ∀ (a : Nat) (t : List Nat) (s : Nat) (r : Int),
      (decodeGroup (a :: t) s r).2.length ≤ t.length := by
    intro a t s r
    rw [decodeGroup]
    split
    · exact key _ _ _
    · exact Nat.le_refl _
  simp only [List.length_cons]
  exact Nat.lt_succ_of_le (Nat.le_trans (key _ _ _) (key2 _ _ _ _))

/-- `decodePolyline` over a list of UTF-16 code units: running totals start
at `0`, points are cumulative. -/
def decodePolyline (l : List Nat) : List (ℚ × ℚ) := decodeLoop l 0 0

/-- `decodePolyline` on a Lean `String` (code points coincide with UTF-16
code units for the BMP strings the engine emits). -/
def decodePolylineStr (s : String) : List (ℚ × ℚ) :=
  decodePolyline (s.toList.map Char.toNat)

/-- Fuel-indexed evaluator for `decodeLoop` that keeps the raw 1e5-scaled
integer totals instead of dividing.  Used only to compute concrete values by
kernel reduction; `decodeLoop_eq_scaled` proves it agrees with `decodeLoop`
whenever the fuel covers the input length. -/
def decodeLoopF : Nat → List Nat → Int → Int → List (Int × Int)
  | 0, _, _, _ => []
  | _ + 1, [], _, _ => []
  | fuel + 1, c :: rest, lat, lng =>
      let p1 := decodeGroup (c :: rest) 0 0
      let lat1 := lat + decodeDelta p1.1
      let p2 := decodeGroup p1.2 0 0
      let lng1 := lng + decodeDelta p2.1
      (lat1, lng1) :: decodeLoopF fuel p2.2 lat1 lng1

/-- The division by `1e5` performed when a point is pushed. -/
def scalePoint (p : Int × Int) : ℚ × ℚ :=
  ((p.1 : ℚ) / 100000, (p.2 : ℚ) / 100000)

/-! ### Data model (`src/types.ts`)

JavaScript numbers are modelled as `ℚ`; ISO-8601 timestamp strings that are
only stored and copied are modelled as `String`. -/

/-- `LatLng` from `src/types.ts`. -/
structure LatLng where
  lat : ℚ
  lng : ℚ
deriving DecidableEq, Repr

/-- Leg `mode` — the closed `'WALK' | 'TRANSIT'` variant. -/
inductive Mode where
  | WALK
  | TRANSIT
deriving DecidableEq, Repr

/-- `Place` from `src/types.ts`. -/
structure Place where
  name : String
  lat : ℚ
  lng : ℚ
  stopId : Option String
deriving DecidableEq, Repr

/-- `Leg` from `src/types.ts`. -/
structure Leg where
  mode : Mode
  fromPlace : Place
  toPlace : Place
  departureTime : String
  arrivalTime : String
  duration : ℚ
  distance : Option ℚ
  routeShortName : Option String
  routeLongName : Option String
  agencyName : Option String
  headsign : Option String
  polyline : List (ℚ × ℚ)
deriving DecidableEq, Repr

/-- `Itinerary` from `src/types.ts`. -/
structure Itinerary where
  duration : ℚ
  startTime : String
  endTime : String
  walkDistance : ℚ
  transfers : ℚ
  legs : List Leg
deriving DecidableEq, Repr

/-! ### Routing client (`src/lib/routing.ts`)

The raw Motis JSON is modelled by `Option`-typed structures mirroring the
casts in `parseItinerary`.  JavaScript `x || d` on numbers treats `0` as
absent and on strings treats `""` as absent; the helpers below reproduce
that. -/

/-- JavaScript `x || d` where `x : number | undefined` (`0` is falsy). -/
def jsOrNum (x : Option ℚ) (d : ℚ) : ℚ :=
  match x with
  | some v => if v = 0 then d else v
  | none => d

/-- JavaScript `x || d` where `x : string | undefined` (`""` is falsy). -/
def jsOrStr (x : Option String) (d : String) : String :=
  match x with
  | some s => if s = "" then d else s
  | none => d

/-- Raw `from`/`to` object of a Motis leg. -/
structure RawPlace where
  name : Option String
  lat : Option ℚ
  lon : Option ℚ
  stopId : Option String
deriving DecidableEq, Repr

/-- Raw `legGeometry` object of a Motis leg. -/
structure RawGeometry where
  points : Option String
deriving DecidableEq, Repr

/-- Raw Motis leg, as cast inside `parseItinerary`. -/
structure RawLeg where
  mode : Option String
  fromPlace : Option RawPlace
  toPlace : Option RawPlace
  startTime : Option String
  departureTime : Option String
  endTime : Option String
  arrivalTime : Option String
  duration : Option ℚ
  distance : Option ℚ
  routeShortName : Option String
  routeLongName : Option String
  agencyName : Option String
  headsign : Option String
  legGeometry : Option RawGeometry
deriving DecidableEq, Repr

/-- Raw Motis itinerary, as cast inside `parseItinerary`. -/
structure RawItinerary where
  legs : List RawLeg
  duration : Option ℚ
  startTime : Option String
  endTime : Option String
  walkDistance : Option ℚ
  transfers : Option ℚ
deriving DecidableEq, Repr

/-- The `rawLeg.from?.name || 'Unknown'` style access: optional chaining
into a raw place field followed by a `||` default. -/
def placeOf (p : Option RawPlace) : Place :=
  { name := jsOrStr (p.bind RawPlace.name) "Unknown"
    lat := jsOrNum (p.bind RawPlace.lat) 0
    lng := jsOrNum (p.bind RawPlace.lon) 0
    stopId := p.bind RawPlace.stopId }

/-- The per-leg mapping lambda inside `parseItinerary` (`rawItinerary.legs.map`). -/
def parseLeg (rawLeg : RawLeg) : Leg :=
  { mode := if rawLeg.mode = some "WALK" then Mode.WALK else Mode.TRANSIT
    fromPlace := placeOf rawLeg.fromPlace
    toPlace := placeOf rawLeg.toPlace
    departureTime := jsOrStr rawLeg.startTime (jsOrStr rawLeg.departureTime "")
    arrivalTime := jsOrStr rawLeg.endTime (jsOrStr rawLeg.arrivalTime "")
    duration := jsOrNum rawLeg.duration 0
    distance := rawLeg.distance
    routeShortName := rawLeg.routeShortName
    routeLongName := rawLeg.routeLongName
    agencyName := rawLeg.agencyName
    headsign := rawLeg.headsign
    polyline :=
      match rawLeg.legGeometry.bind RawGeometry.points with
      | some pts => if pts = "" then [] else decodePolylineStr pts
      | none => [] }

/-- `parseItinerary` from `src/lib/routing.ts`. -/
def parseItinerary (rawItinerary : RawItinerary) : Itinerary :=
  let legs := rawItinerary.legs.map parseLeg
  { duration := jsOrNum rawItinerary.duration 0
    startTime := jsOrStr rawItinerary.startTime ""
    endTime := jsOrStr rawItinerary.endTime ""
    walkDistance := jsOrNum rawItinerary.walkDistance 0
    transfers := jsOrNum rawItinerary.transfers
      (max 0 ((legs.filter (fun l => l.mode ≠ Mode.WALK)).length - 1 : Int) : Int)
    legs := legs }

/-- Body of a successful Motis `/api/v2/plan` response: `data.itineraries`
may be absent. -/
structure RawPlanBody where
  itineraries : Option (List RawItinerary)
deriving Repr

/-- One observable behaviour of the engine HTTP boundary for a single
`fetch`: the network fails, the server answers a non-ok status, the body is
not JSON, or a JSON body arrives. -/
inductive EngineResponse where
  | networkFailure
  | httpError (status : Nat)
  | malformedBody
  | success (body : RawPlanBody)

/-- The `try` block of `planJourney`: everything up to and including the
`data.itineraries.map(parseItinerary)` call, with `throw` made explicit.
`fetch` rejection and `response.json()` failure also surface as errors. -/
def planJourneyTry (resp : EngineResponse) : Except String (List Itinerary) :=
  match resp with
  | .networkFailure => .error "Failed to fetch"
  | .httpError status =>
      if status = 404 then .ok []
      else .error "Motis API error"
  | .malformedBody => .error "malformed response body"
  | .success body =>
      match body.itineraries with
      | none => .ok []
      | some its => .ok (its.map parseItinerary)

/-- `planJourney` from `src/lib/routing.ts`: the `catch` block logs and
returns `[]` on every error, so the function is total and never throws past
its boundary.  The origin, destination and departure time only shape the
request URL and are irrelevant to the response mapping. -/
def planJourney (fromPlace toPlace : LatLng) (departureTime : String)
    (resp : EngineResponse) : List Itinerary :=
  match planJourneyTry resp with
  | .ok its => its
  | .error _ => []

/-! ### Demand ledger (`src/lib/demand.ts`)

`localStorage` under the fixed key `horiohop_demands` is modelled by `Store`:
never written, unreadable/corrupt JSON, or a stored record array.  ISO
`createdAt` strings are modelled by their epoch-millisecond value, so the
`new Date(d.createdAt) > thirtyDaysAgo` comparison is integer `<`.  The
effectful pieces the code delegates to the platform — `crypto.randomUUID()`,
`new Date()`, and whether `localStorage.setItem` succeeds — are explicit
parameters. -/

/-- `DemandRecord` from `src/lib/demand.ts` (`createdAt` in epoch ms). -/
structure DemandRecord where
  id : String
  villageId : String
  originCity : String
  desiredDate : String
  partySize : ℚ
  email : Option String
  createdAt : Int
deriving DecidableEq, Repr

/-- The argument of `addDemand`: a record without `id`/`createdAt`. -/
structure DemandInput where
  villageId : String
  originCity : String
  desiredDate : String
  partySize : ℚ
  email : Option String
deriving DecidableEq, Repr

/-- The persisted state of the `horiohop_demands` localStorage key. -/
inductive Store where
  | absent
  | corrupt
  | data (records : List DemandRecord)
deriving DecidableEq, Repr

/-- `getDemands`: parse the stored array; an absent key yields `[]` and a
corrupt store is caught and yields `[]`. -/
def getDemands (store : Store) : List DemandRecord :=
  match store with
  | .absent => []
  | .corrupt => []
  | .data records => records

/-- Result of `addDemand`: the storage state afterwards, and either the
returned record or the thrown error. -/
structure AddResult where
  store : Store
  result : Except String DemandRecord
deriving Repr

/-- `addDemand`: build the new record with a fresh id and the current
timestamp, append it to the parsed collection, and persist the whole
collection; if `setItem` throws, the error is logged and
`Error('Failed to save demand request')` is thrown, leaving the persisted
collection untouched. -/
def addDemand (store : Store) (freshId : String) (now : Int) (persistOk : Bool)
    (demand : DemandInput) : AddResult :=
  let demands := getDemands store
  let newDemand : DemandRecord :=
    { id := freshId
      villageId := demand.villageId
      originCity := demand.originCity
      desiredDate := demand.desiredDate
      partySize := demand.partySize
      email := demand.email
      createdAt := now }
  if persistOk then
    { store := .data (demands ++ [newDemand]), result := .ok newDemand }
  else
    { store := store, result := .error "Failed to save demand request" }

/-- Milliseconds per day; `thirtyDaysAgo.setDate(getDate() - 30)` shifts the
clock back thirty days (modelled on the epoch-millisecond timeline). -/
def msPerDay : Int := 86400000

/-- `getDemandCountForVillage`: count the stored records for `villageId`
whose `createdAt` is strictly inside the trailing 30-day window. -/
def getDemandCountForVillage (store : Store) (villageId : String) (now : Int) : Nat :=
  let demands := getDemands store
  let thirtyDaysAgo := now - 30 * msPerDay
  (demands.filter (fun d => d.villageId == villageId && thirtyDaysAgo < d.createdAt)).length

/-- `acc[d.villageId] = (acc[d.villageId] || 0) + 1` on a JavaScript object,
modelled as an insertion-ordered association list. -/
def bump (acc : List (String × Nat)) (k : String) : List (String × Nat) :=
  match acc with
  | [] => [(k, 1)]
  | (k1, n) :: rest => if k1 = k then (k1, n + 1) :: rest else (k1, n) :: bump rest k

/-- `getAllDemandCounts`: filter the stored records to the trailing 30-day
window and fold them into per-village counts. -/
def getAllDemandCounts (store : Store) (now : Int) : List (String × Nat) :=
  let demands := getDemands store
  let thirtyDaysAgo := now - 30 * msPerDay
  (demands.filter (fun d => thirtyDaysAgo < d.createdAt)).foldl
    (fun acc d => bump acc d.villageId) []

/-- Reading `counts[v]`, with `0` for an absent key (`counts[v] || 0`). -/
def lookupCount : List (String × Nat) → String → Nat
  | [], _ => 0
  | (k, n) :: rest, v => if k = v then n else lookupCount rest v

/-! ### Journey orchestrator (`src/context/AppContext.tsx`, `AppProvider`)

The `AppState` fields that participate in origin resolution, village
selection and route fetching are modelled; the view/demand-dialog fields are
independent of this machine.  The route-fetch `useEffect` (dependencies
`[selectedVillage, userLocation, selectedCity]`) is re-run by exactly the
state updates that change one of those three fields, and is modelled by
`applyRouteEffect`.  Each `fetchRoutes` call awaits a `Promise.all` of the two
`planJourney` calls; an outstanding pair is one `PendingFetch`, tagged with
the village and origin it was issued for.  Its completion applies the
`setState` in `fetchRoutes` unconditionally — the code never compares the tag
against the current selection.  `planJourney` never rejects, so the `catch`
branch of `fetchRoutes` is unreachable and completions are the only async
events. -/

/-- The orchestrator only reads `id`, `lat` and `lng` of a `Village`; the
remaining fields of `src/types.ts` are presentational. -/
structure Village where
  id : String
  lat : ℚ
  lng : ℚ
deriving DecidableEq, Repr

/-- The `'to' | 'from'` direction of a selected route. -/
inductive Direction where
  | toVillage
  | fromVillage
deriving DecidableEq, Repr

/-- A `selectedRoute` value: `{ direction: 'to' | 'from'; index: number }`. -/
structure RouteRef where
  direction : Direction
  index : Nat
deriving DecidableEq, Repr

/-- An in-flight `fetchRoutes` invocation: the `Promise.all` of the two
directional `planJourney` calls, tagged with the selection it was issued
for. -/
structure PendingFetch where
  village : Village
  origin : LatLng
deriving DecidableEq, Repr

/-- The orchestrator-relevant part of `AppState`, plus the in-flight
fetches needed to model asynchronous completion. -/
structure AppState where
  userLocation : Option LatLng
  locationLoading : Bool
  locationError : Option String
  selectedCity : Option String
  selectedVillage : Option Village
  sidebarOpen : Bool
  routesToVillage : List Itinerary
  routesFromVillage : List Itinerary
  routesLoading : Bool
  routesError : Option String
  selectedRoute : Option RouteRef
  pending : List PendingFetch
deriving Repr

/-- The initial `useState` value of `AppProvider`. -/
def initialAppState : AppState :=
  { userLocation := none
    locationLoading := true
    locationError := none
    selectedCity := none
    selectedVillage := none
    sidebarOpen := false
    routesToVillage := []
    routesFromVillage := []
    routesLoading := false
    routesError := none
    selectedRoute := none
    pending := [] }

/-- `CITY_COORDS` from `AppContext.tsx`; indexing a JavaScript object with a
key outside the table yields `undefined`. -/
def cityCoords (city : String) : Option LatLng :=
  if city = "Nicosia" then some { lat := 35.1856, lng := 33.3823 }
  else if city = "Limassol" then some { lat := 34.6823, lng := 33.0464 }
  else if city = "Larnaca" then some { lat := 34.9229, lng := 33.6233 }
  else if city = "Paphos" then some { lat := 34.7754, lng := 32.4245 }
  else none

/-- The route-fetch `useEffect` body, run after a state update that changed
`selectedVillage`, `userLocation` or `selectedCity`: with no village or no
origin source the route lists are cleared; with an unknown city name the
origin lookup yields `undefined` and the effect returns having changed
nothing; otherwise `fetchRoutes` starts — `routesLoading` is set, the error
cleared and a tagged fetch becomes pending. -/
def applyRouteEffect (s : AppState) : AppState :=
  if s.selectedVillage = none ∨ (s.userLocation = none ∧ s.selectedCity = none) then
    { s with routesToVillage := [], routesFromVillage := [] }
  else
    let origin : Option LatLng :=
      match s.userLocation with
      | some loc => some loc
      | none =>
        match s.selectedCity with
        | some city => cityCoords city
        | none => none
    match s.selectedVillage, origin with
    | some village, some o =>
        { s with routesLoading := true
                 routesError := none
                 pending := s.pending ++ [{ village := village, origin := o }] }
    | _, _ => s

/-- The events that drive the orchestrator: the exposed mutation actions
whose updates feed the route effect, the geolocation callbacks, and the
completion of an in-flight fetch (carrying the two `planJourney` results,
which the environment — the routing engine — determines). -/
inductive Event where
  | selectVillage (village : Option Village)
  | selectCity (city : Option String)
  | locationSuccess (loc : LatLng)
  | locationFailure (message : String)
  | selectRoute (route : Option RouteRef)
  | fetchResolve (idx : Nat) (routesTo routesFrom : List Itinerary)

/-- One orchestrator step.  `selectVillage` is `setSelectedVillage` (which
also clears `selectedRoute` and drives the sidebar); `selectCity` is
`setSelectedCity`; the location events are the `getCurrentPosition`
callbacks; `selectRoute` is `setSelectedRoute`; `fetchResolve idx` is the
settlement of the `idx`-th outstanding `Promise.all`, whose `setState`
stores both result lists and clears `routesLoading` unconditionally.  The
route effect re-runs exactly after the events that change one of its
dependencies. -/
def appStep (s : AppState) (e : Event) : AppState :=
  match e with
  | .selectVillage village =>
      applyRouteEffect
        { s with selectedVillage := village
                 sidebarOpen := village.isSome
                 selectedRoute := none }
  | .selectCity city =>
      applyRouteEffect { s with selectedCity := city }
  | .locationSuccess loc =>
      applyRouteEffect
        { s with userLocation := some loc
                 locationLoading := false
                 locationError := none }
  | .locationFailure message =>
      { s with locationLoading := false, locationError := some message }
  | .selectRoute route =>
      { s with selectedRoute := route }
  | .fetchResolve idx routesTo routesFrom =>
      match s.pending[idx]? with
      | none => s
      | some _ =>
          { s with pending := s.pending.eraseIdx idx
                   routesToVillage := routesTo
                   routesFromVillage := routesFrom
                   routesLoading := false }

/-- Run the orchestrator from the initial state over a schedule of events. -/
def runApp (events : List Event) : AppState :=
  events.foldl appStep initialAppState

/-! ### Concrete inputs used by the theorems below -/

/-- A raw Motis leg with every optional field absent. -/
def rawLegBase : RawLeg :=
  { mode := none, fromPlace := none, toPlace := none, startTime := none
    departureTime := none, endTime := none, arrivalTime := none
    duration := none, distance := none, routeShortName := none
    routeLongName := none, agencyName := none, headsign := none
    legGeometry := none }

/-- A raw TRANSIT leg with no geometry. -/
def rawTransitLeg : RawLeg := { rawLegBase with mode := some "TRANSIT" }

/-- A raw itinerary with two TRANSIT legs whose engine-supplied `transfers`
is `0`. -/
def c4Raw : RawItinerary :=
  { legs := [rawTransitLeg, rawTransitLeg], duration := none, startTime := none
    endTime := none, walkDistance := none, transfers := some 0 }

/-- A raw itinerary with two TRANSIT legs and an engine-supplied nonzero
`transfers` value. -/
def c4SuppliedRaw : RawItinerary := { c4Raw with transfers := some 3 }

/-- A raw itinerary with two TRANSIT legs and no engine-supplied
`transfers`. -/
def c4AbsentRaw : RawItinerary := { c4Raw with transfers := none }

/-- A raw leg whose geometry string encodes exactly one coordinate pair,
`(38.5, -120.2)`. -/
def c5RawLeg : RawLeg :=
  { rawLegBase with legGeometry := some { points := some "_p~iF~ps|U" } }

/-- First test village (integral coordinates keep the traces computable). -/
def villageA : Village := { id := "agros", lat := 34, lng := 33 }

/-- Second test village. -/
def villageB : Village := { id := "lefkara", lat := 35, lng := 33 }

/-- An itinerary with a given total duration and no legs, used as a
distinguishable `planJourney` result in the orchestrator schedules. -/
def itinOf (d : ℚ) : Itinerary :=
  { duration := d, startTime := "", endTime := "", walkDistance := 0
    transfers := 0, legs := [] }

/-- Schedule for the stale-fetch race: the origin resolves, village A is
selected (fetch 0 issued), village B is selected before fetch 0 settles
(fetch 1 issued), B's fetch settles first with B's routes, and finally A's
slow fetch settles with A's routes. -/
def c1Schedule : List Event :=
  [ .locationSuccess { lat := 35, lng := 33 },
    .selectVillage (some villageA),
    .selectVillage (some villageB),
    .fetchResolve 1 [itinOf 2] [itinOf 20],
    .fetchResolve 0 [itinOf 1] [itinOf 10] ]

/-- Final state of the stale-fetch race. -/
def c1Final : AppState := runApp c1Schedule

/-- Schedule prefix for the origin-change scenario: a fallback city supplies
the origin, village A is selected, the fetch settles with two routes toward
the village, and route index 1 of that list is selected (a valid index). -/
def c2Before : List Event :=
  [ .selectCity (some "Nicosia"),
    .selectVillage (some villageA),
    .fetchResolve 0 [itinOf 1, itinOf 2] [],
    .selectRoute (some { direction := .toVillage, index := 1 }) ]

/-- State just after the route selection, before the origin changes. -/
def c2Mid : AppState := runApp c2Before

/-- Full origin-change schedule: after the selection, device geolocation
succeeds (an origin change), the refetch is issued, and it settles with no
routes. -/
def c2Schedule : List Event :=
  c2Before ++
  [ .locationSuccess { lat := 35, lng := 33 },
    .fetchResolve 0 [] [] ]

/-- Final state of the origin-change scenario. -/
def c2Final : AppState := runApp c2Schedule

/-! ### Helper lemmas -/

/-- `decodeGroup` never produces more remaining input than it was given. -/
theorem decodeGroup_rest_le (m : List Nat) :
    ∀ (s : Nat) (r : Int), (decodeGroup m s r).2.length ≤ m.length := by
  induction m with
  | nil => intro s r; simp [decodeGroup]
  | cons a t ih =>
      intro s r
      rw [decodeGroup]
      split
      · exact Nat.le_trans (ih _ _) (Nat.le_succ _)
      · exact Nat.le_succ _

/-- On nonempty input `decodeGroup` consumes at least one code unit. -/
theorem decodeGroup_cons_rest_le (a : Nat) (t : List Nat) (s : Nat) (r : Int) :
    (decodeGroup (a :: t) s r).2.length ≤ t.length := by
  rw [decodeGroup]
  split
  · exact decodeGroup_rest_le _ _ _
  · exact Nat.le_refl _

/-- `decodeLoop` agrees with the scaled fuel evaluator whenever the fuel
covers the input length. -/
theorem decodeLoop_eq_scaled (fuel : Nat) :
    ∀ (l : List Nat) (lat lng : Int), l.length ≤ fuel →
      decodeLoop l lat lng = (decodeLoopF fuel l lat lng).map scalePoint := by
  induction fuel with
  | zero =>
      intro l lat lng h
      have hl : l = [] := List.length_eq_zero.mp (Nat.le_zero.mp h)
      subst hl
      rw [decodeLoop]
      simp [decodeLoopF]
  | succ fuel ih =>
      intro l lat lng h
      cases l with
      | nil =>
          rw [decodeLoop]
          simp [decodeLoopF]
      | cons c rest =>
          have h1 : (decodeGroup (decodeGroup (c :: rest) 0 0).2 0 0).2.length ≤ rest.length :=
            Nat.le_trans (decodeGroup_rest_le _ _ _) (decodeGroup_cons_rest_le _ _ _ _)
          have hlen : (decodeGroup (decodeGroup (c :: rest) 0 0).2 0 0).2.length ≤ fuel :=
            Nat.le_trans h1 (Nat.le_of_succ_le_succ h)
          rw [decodeLoop]
          simp only [decodeLoopF, List.map_cons, scalePoint, ih _ _ _ hlen]

/-- The fuel evaluator emits at most one point per consumed code unit. -/
theorem decodeLoopF_length_le (fuel : Nat) :
    ∀ (l : List Nat) (lat lng : Int), (decodeLoopF fuel l lat lng).length ≤ l.length := by
  induction fuel with
  | zero => intro l lat lng; simp [decodeLoopF]
  | succ fuel ih =>
      intro l lat lng
      cases l with
      | nil => simp [decodeLoopF]
      | cons c rest =>
          simp only [decodeLoopF, List.length_cons]
          have h1 : (decodeGroup (decodeGroup (c :: rest) 0 0).2 0 0).2.length ≤ rest.length :=
            Nat.le_trans (decodeGroup_rest_le _ _ _) (decodeGroup_cons_rest_le _ _ _ _)
          exact Nat.succ_le_succ (Nat.le_trans (ih _ _ _) h1)

/-- On nonempty input `decodeLoop` pushes at least one point. -/
theorem decodeLoop_cons_ne_nil (c : Nat) (rest : List Nat) (lat lng : Int) :
    decodeLoop (c :: rest) lat lng ≠ [] := by
  rw [decodeLoop]
  simp

/-- `lookupCount` after a `bump` at key `k`. -/
theorem lookupCount_bump (acc : List (String × Nat)) (k v : String) :
    lookupCount (bump acc k) v = lookupCount acc v + (if k = v then 1 else 0) := by
  induction acc with
  | nil =>
      by_cases h : k = v <;> simp [bump, lookupCount, h]
  | cons p rest ih =>
      obtain ⟨k1, n⟩ := p
      by_cases h1 : k1 = k
      · subst h1
        by_cases h2 : k1 = v <;> simp [bump, lookupCount, h2]
      · by_cases h2 : k1 = v
        · subst h2
          have : ¬k = k1 := fun h => h1 h.symm
          simp [bump, lookupCount, h1, this]
        · simp [bump, lookupCount, h1, h2, ih]

/-- Folding `bump` over a record list adds the per-key occurrence count. -/
theorem lookupCount_foldl_bump (l : List DemandRecord) :
    ∀ (acc : List (String × Nat)) (v : String),
      lookupCount (l.foldl (fun a d => bump a d.villageId) acc) v
        = lookupCount acc v + l.countP (fun d => d.villageId == v) := by
  induction l with
  | nil => intro acc v; simp
  | cons d rest ih =>
      intro acc v
      simp only [List.foldl_cons, ih, lookupCount_bump, List.countP_cons]
      by_cases h : d.villageId = v <;> simp [h] <;> omega

/-- A nonempty encoded string always decodes to at least one point: the
outer loop runs at least once and every iteration pushes a point. -/
theorem decodePolylineStr_ne_nil (s : String) (hs : s ≠ "") :
    decodePolylineStr s ≠ [] := by
  rw [decodePolylineStr, decodePolyline]
  obtain ⟨c, t, h⟩ : ∃ c t, s.toList.map Char.toNat = c :: t := by
    cases hl : s.toList with
    | nil =>
        exact absurd (by cases s with | mk data => simpa [String.toList] using congrArg String.mk hl) hs
    | cons c t => exact ⟨c.toNat, t.map Char.toNat, by simp [hl]⟩
  rw [h]
  exact decodeLoop_cons_ne_nil _ _ _ _

/-! ### Claim theorems -/

/-- C6: `decodePolyline` is total by construction (it is a Lean function on
arbitrary code-unit lists, including truncated byte groups, with no error
channel) and always returns a finite sequence — at most one coordinate pair
per input code unit; in particular the one-character input `"_"`, a byte
group whose continuation bit is set at the end of the string, decodes
without error to the single pair `(0, 0)`. -/
theorem decodePolyline_total_and_finite :
    (∀ l : List Nat, (decodePolyline l).length ≤ l.length) ∧
      decodePolylineStr "_" = [(0, 0)] := by
  constructor
  · intro l
    rw [decodePolyline, decodeLoop_eq_scaled l.length l 0 0 (Nat.le_refl _)]
    simpa using decodeLoopF_length_le l.length l 0 0
  · have h1 : decodePolylineStr "_"
        = (decodeLoopF 1 ("_".toList.map Char.toNat) 0 0).map scalePoint := by
      rw [decodePolylineStr, decodePolyline]
      exact decodeLoop_eq_scaled 1 _ 0 0 (by decide)
    have h2 : decodeLoopF 1 ("_".toList.map Char.toNat) 0 0 = [(0, 0)] := by decide
    rw [h1, h2]
    simp [scalePoint]

/-- C7: `decodePolyline ""` is the empty sequence, and the canonical
polyline-algorithm test vector decodes to exactly
`(38.5, -120.2), (40.7, -120.95), (43.252, -126.453)` in order. -/
theorem decodePolyline_reference_vectors :
    decodePolylineStr "" = [] ∧
      decodePolylineStr "_p~iF~ps|U_ulLnnqC_mqNvxq`@" =
        [((38.5 : ℚ), (-120.2 : ℚ)), ((40.7 : ℚ), (-120.95 : ℚ)),
          ((43.252 : ℚ), (-126.453 : ℚ))] := by
  constructor
  · show decodeLoop [] 0 0 = []
    rw [decodeLoop]
  · have h1 : decodePolylineStr "_p~iF~ps|U_ulLnnqC_mqNvxq`@"
        = (decodeLoopF 27 ("_p~iF~ps|U_ulLnnqC_mqNvxq`@".toList.map Char.toNat) 0 0).map
            scalePoint := by
      rw [decodePolylineStr, decodePolyline]
      exact decodeLoop_eq_scaled 27 _ 0 0 (by decide)
    have h2 : decodeLoopF 27 ("_p~iF~ps|U_ulLnnqC_mqNvxq`@".toList.map Char.toNat) 0 0
        = [(3850000, -12020000), (4070000, -12095000), (4325200, -12645300)] := by decide
    rw [h1, h2]
    simp only [List.map_cons, List.map_nil, scalePoint]
    norm_num

/-- C3: `planJourney` never throws past its boundary — the `catch` block
turns every failure into a return — and yields the empty list on network
failure, on HTTP 404 and every other non-success status, on a malformed
response body, and on a success body with no `itineraries` field; a success
body with itineraries maps them through `parseItinerary`. -/
theorem planJourney_error_contract :
    ∀ (origin dest : LatLng) (time : String) (status : Nat) (its : List RawItinerary),
      planJourney origin dest time .networkFailure = [] ∧
      planJourney origin dest time (.httpError status) = [] ∧
      planJourney origin dest time .malformedBody = [] ∧
      planJourney origin dest time (.success { itineraries := none }) = [] ∧
      planJourney origin dest time (.success { itineraries := some its })
        = its.map parseItinerary := by
  intro origin dest time status its
  refine ⟨rfl, ?_, rfl, rfl, rfl⟩
  by_cases h : status = 404 <;> simp [planJourney, planJourneyTry, h]

/-- C4 counterexample: for the raw itinerary `c4Raw` the engine supplies
`transfers = 0`, yet the mapped itinerary's `transfers` is `1` (the derived
`max(0, count(TRANSIT legs) - 1)` for its two TRANSIT legs), because `||`
treats the supplied `0` as absent. -/
theorem transfers_zero_is_overridden :
    c4Raw.transfers = some 0 ∧ (parseItinerary c4Raw).transfers ≠ 0 ∧
      (parseItinerary c4Raw).transfers = 1 := by
  refine ⟨rfl, ?_, ?_⟩ <;> decide

/-- C4 (amended): the mapped `transfers` equals the engine-supplied value
whenever the engine supplies a nonzero value; when the field is absent — or
supplied as `0`, which `||` cannot distinguish from absent — it is derived
as `max(0, count(TRANSIT legs) - 1)`. -/
theorem transfers_mapping_amended (raw : RawItinerary) :
    (∀ n : ℚ, raw.transfers = some n → n ≠ 0 → (parseItinerary raw).transfers = n) ∧
      ((raw.transfers = none ∨ raw.transfers = some 0) →
        (parseItinerary raw).transfers =
          ((max 0 (((raw.legs.map parseLeg).filter
            (fun l => l.mode ≠ Mode.WALK)).length - 1 : Int) : Int) : ℚ)) := by
  constructor
  · intro n hsome hn
    simp [parseItinerary, jsOrNum, hsome, hn]
  · rintro (h | h) <;> simp [parseItinerary, jsOrNum, h]

/-- Witness for the amended C4 theorem at concrete inputs: an engine-supplied
`transfers = 3` survives the mapping, and with the field absent the derived
value for two TRANSIT legs is `1`. -/
theorem transfers_mapping_amended_witness :
    (parseItinerary c4SuppliedRaw).transfers = 3 ∧
      (parseItinerary c4AbsentRaw).transfers = 1 := by
  constructor
  · exact (transfers_mapping_amended c4SuppliedRaw).1 3 rfl (by norm_num)
  · have h := (transfers_mapping_amended c4AbsentRaw).2 (Or.inl rfl)
    rw [h]
    decide

/-- C5 counterexample: the raw leg `c5RawLeg` supplies the geometry string
`"_p~iF~ps|U"`, which encodes a single coordinate pair, and the mapped leg's
polyline has exactly one point — refuting the claim that a decoded, assigned
polyline is never a single point. -/
theorem single_point_polyline_exists :
    c5RawLeg.legGeometry = some { points := some "_p~iF~ps|U" } ∧
      (parseLeg c5RawLeg).polyline.length = 1 := by
  refine ⟨rfl, ?_⟩
  have h0 : (parseLeg c5RawLeg).polyline = decodePolylineStr "_p~iF~ps|U" := by
    simp [parseLeg, c5RawLeg, rawLegBase]
  have h1 : decodePolylineStr "_p~iF~ps|U"
      = (decodeLoopF 10 ("_p~iF~ps|U".toList.map Char.toNat) 0 0).map scalePoint := by
    rw [decodePolylineStr, decodePolyline]
    exact decodeLoop_eq_scaled 10 _ 0 0 (by decide)
  have h2 : decodeLoopF 10 ("_p~iF~ps|U".toList.map Char.toNat) 0 0
      = [(3850000, -12020000)] := by decide
  rw [h0, h1, h2]
  rfl

/-- C5 (amended): a mapped leg's polyline is nonempty exactly when the raw
leg supplies a nonempty geometry string; a nonempty geometry string yields at
least one point, but possibly exactly one — the `≥ 2` bound of the original
claim does not hold. -/
theorem leg_polyline_nonempty_iff (rawLeg : RawLeg) :
    (parseLeg rawLeg).polyline ≠ [] ↔
      (∃ s, rawLeg.legGeometry.bind RawGeometry.points = some s ∧ s ≠ "") := by
  cases hg : rawLeg.legGeometry.bind RawGeometry.points with
  | none => simp [parseLeg, hg]
  | some s =>
      by_cases hs : s = ""
      · subst hs
        simp [parseLeg, hg]
      · simp [parseLeg, hg, hs, decodePolylineStr_ne_nil s hs]

/-- C8: `addDemand` raises exactly when persistence fails; on failure the
persisted collection is untouched (any later read sees the old records), and
on success the persisted collection is the previous one with exactly the one
new record — fresh id, current timestamp, the caller's fields — appended at
the end. -/
theorem addDemand_atomic_persistence :
    ∀ (store : Store) (freshId : String) (now : Int) (input : DemandInput),
      (addDemand store freshId now false input).store = store ∧
      (addDemand store freshId now false input).result
        = .error "Failed to save demand request" ∧
      ∃ r : DemandRecord,
        (addDemand store freshId now true input).result = .ok r ∧
        r.id = freshId ∧ r.createdAt = now ∧ r.villageId = input.villageId ∧
        r.originCity = input.originCity ∧ r.desiredDate = input.desiredDate ∧
        r.partySize = input.partySize ∧ r.email = input.email ∧
        getDemands (addDemand store freshId now true input).store
          = getDemands store ++ [r] := by
  intro store freshId now input
  exact ⟨rfl, rfl, ⟨_, rfl, rfl, rfl, rfl, rfl, rfl, rfl, rfl, rfl⟩⟩

/-- C9: `getDemandCountForVillage` counts exactly the stored records whose
`villageId` matches and whose `createdAt` lies in the trailing 30-day window;
adding a demand for village `"x"` to an empty store and counting `"x"` gives
`1`; and a record created 40 days in the past is excluded under the default
window. -/
theorem demand_count_window_scenarios :
    (∀ (store : Store) (v : String) (now : Int),
      getDemandCountForVillage store v now
        = (getDemands store).countP
            (fun d => d.villageId == v && decide (now - 30 * msPerDay < d.createdAt))) ∧
    (∀ (freshId : String) (now : Int) (input : DemandInput),
      getDemandCountForVillage
        (addDemand Store.absent freshId now true { input with villageId := "x" }).store
        "x" now = 1) ∧
    (∀ (now : Int) (rid oc dd : String) (ps : ℚ) (em : Option String) (v : String),
      getDemandCountForVillage
        (Store.data [{ id := rid, villageId := v, originCity := oc, desiredDate := dd,
                       partySize := ps, email := em, createdAt := now - 40 * msPerDay }])
        v now = 0) := by
  refine ⟨?_, ?_, ?_⟩
  · intro store v now
    simp [getDemandCountForVillage, List.countP_eq_length_filter]
  · intro freshId now input
    have hwin : now - 30 * msPerDay < now := by simp [msPerDay]
    simp [addDemand, getDemandCountForVillage, getDemands, hwin]
  · intro now rid oc dd ps em v
    have hwin : ¬(now - 30 * msPerDay < now - 40 * msPerDay) := by
      unfold msPerDay
      omega
    simp [getDemandCountForVillage, getDemands, hwin]

/-- C10: for every stored collection, village and evaluation time, the
per-village count agrees with the aggregate view — the value at the village's
key in `getAllDemandCounts`, read as `0` when absent.  Both functions are
pure reads of the store in this model (they take the store and return only a
value). -/
theorem demand_count_agrees_with_aggregate :
    ∀ (store : Store) (v : String) (now : Int),
      getDemandCountForVillage store v now
        = lookupCount (getAllDemandCounts store now) v := by
  intro store v now
  simp only [getDemandCountForVillage, getAllDemandCounts]
  rw [lookupCount_foldl_bump]
  simp only [lookupCount, List.countP_eq_length_filter, List.filter_filter, Nat.zero_add]

/-- C1: the stale-result discard property fails on the code.  In `c1Schedule`
village A is selected, then village B before A's fetch resolves; B's fetch
resolves first (with B's routes), then A's slow fetch resolves.  The fetch
completion handler stores its results unconditionally, so the final state has
`selectedVillage = B` but A's route lists — A's stale results appear in the
final state for this response arrival order. -/
theorem stale_fetch_overwrites_newer_selection :
    c1Final.selectedVillage = some villageB ∧
      c1Final.pending = [] ∧
      c1Final.routesToVillage = [itinOf 1] ∧
      c1Final.routesFromVillage = [itinOf 10] ∧
      ([itinOf 1] : List Itinerary) ≠ [itinOf 2] := by
  refine ⟨rfl, rfl, rfl, rfl, ?_⟩
  decide

/-- C2: the selected-route invalidation invariant fails on the code.  In
`c2Schedule` a fallback-city origin is set, a village is selected, the fetch
returns two routes, and route index 1 is selected (valid at that moment);
then the device location resolves — an origin change — and the refetch
returns no routes.  The orchestrator never clears `selectedRoute` on origin
changes, so the final state still has `selectedRoute = (to, 1)` while
`routesToVillage` is empty: the index is out of bounds. -/
theorem origin_change_keeps_stale_route_selection :
    c2Mid.selectedRoute = some { direction := Direction.toVillage, index := 1 } ∧
      c2Mid.routesToVillage.length = 2 ∧
      c2Final.userLocation = some { lat := 35, lng := 33 } ∧
      c2Final.selectedRoute = some { direction := Direction.toVillage, index := 1 } ∧
      c2Final.routesToVillage.length = 0 := by
  exact ⟨rfl, rfl, rfl, rfl, rfl⟩
